import Mathlib

/-!
Verification of the session pool / admission / lifecycle manager found in
`main2.js` and its three unnamed sibling variants (`part_000`, `part_001`,
`part_002`).  Each variant keeps a JavaScript `Map` called `activeClients`
from a tenant id (`uid`) to a mutable `clientState` object.  We embed that
map as an association list with unique keys (JS `Map` semantics: `set`
overwrites in place, `delete` removes the unique entry, iteration is in
insertion order) and each variant's functions as pure state transformers.

Driver interaction (`new Client`, `client.initialize()`, `client.destroy()`,
`client.sendMessage`, the whatsapp-web.js event stream) is external; its
outcomes are passed in as explicit oracle parameters, and driver handles are
identified by the `Nat` counter used to mint them, so that "a fresh handle
was created" is observable.
-/

/-- The `status` strings a `clientState` can hold across the four variants:
`'initializing'`, `'pending'` (QR issued, i.e. AWAITING_SCAN),
`'authenticated'`, `'ready'`, `'disconnected'`, `'resuming'` (part_000 /
part_001 when saved session files exist) and `'error'` (tested for in
part_000's `['disconnected','error'].includes`). -/
inductive Status
  | initializing
  | pending
  | authenticated
  | ready
  | disconnected
  | resuming
  | error
deriving DecidableEq, Repr

/-- State of a `readyPromise` (the record's completion handle): still
pending, resolved (on the `ready` event), or rejected. -/
inductive PromiseState
  | pending
  | resolved
  | rejected
deriving DecidableEq, Repr

/-- An HTTP response, reduced to the fields the endpoints set: status code,
the `status` field of the JSON body, and its `message` text. -/
structure Response where
  code : Nat
  status : String
  body : String
deriving DecidableEq, Repr

/-- JS `Map.get(k)`: first (unique) binding of `k`, if any. -/
def mapGet {α : Type} (m : List (String × α)) (k : String) : Option α :=
  match m with
  | [] => none
  | (k', v) :: rest => if k' = k then some v else mapGet rest k

/-- JS `Map.set(k, v)`: overwrite the binding in place, append if absent. -/
def mapSet {α : Type} (m : List (String × α)) (k : String) (v : α) :
    List (String × α) :=
  match m with
  | [] => [(k, v)]
  | (k', v') :: rest =>
    if k' = k then (k, v) :: rest else (k', v') :: mapSet rest k v

/-- JS `Map.delete(k)`: remove every binding of `k` (at most one, since keys
are unique in a JS `Map`). -/
def mapDelete {α : Type} (m : List (String × α)) (k : String) :
    List (String × α) :=
  match m with
  | [] => []
  | (k', v') :: rest =>
    if k' = k then mapDelete rest k else (k', v') :: mapDelete rest k

/-- The middleware's `authorization?.split(' ')[1]` with the middleware's falsy check folded
in: the bearer token, or `none` when the header is absent, has no second
space-separated component, or that component is the empty string. All four
variants use this exact middleware. -/
def authToken (authHeader : Option String) : Option String :=
  match authHeader with
  | none => none
  | some h =>
    match (h.splitOn " ").get? 1 with
    | none => none
    | some t => if t = "" then none else some t

/-- The 401 response the auth middleware sends when no token is present. -/
def response401 : Response :=
  { code := 401, status := "error", body := "Authorization token required" }

namespace Main2

/-- Constant `MAX_INSTANCES` in main2.js (line 10). -/
def MAX_INSTANCES : Nat := 2

/-- Constant `INACTIVITY_TIMEOUT` in main2.js (line 11): 5 minutes in ms. -/
def INACTIVITY_TIMEOUT : Nat := 300000

/-- main2.js `clientState` object (lines 167-173).  The `client` field is
represented by the numeric id of the driver handle; `readyPromise` by its
settlement state. -/
structure ClientState where
  clientId : Nat
  status : Status
  qrCode : Option String
  lastActivity : Nat
  promise : PromiseState
deriving DecidableEq, Repr

/-- The `activeClients` map of main2.js. -/
abbrev Registry := List (String × ClientState)

/-- The fresh `clientState` built at main2.js lines 167-173 for driver
handle `freshId` at time `now`. -/
def freshRecord (freshId now : Nat) : ClientState :=
  { clientId := freshId,
    status := Status.initializing,
    qrCode := none,
    lastActivity := now,
    promise := PromiseState.pending }

/-- main2.js lines 131-135: the existing record is reused only when its
`status` is `'ready'`. -/
def existingReady (st : Registry) (uid : String) : Option ClientState :=
  match mapGet st uid with
  | some cs => if cs.status = Status.ready then some cs else none
  | none => none

/-- What the synchronous part of main2.js `initializeClient` decided:
returned the existing ready record, pushed the caller onto
`CONNECTION_QUEUE`, or created and registered a fresh client. -/
inductive InitDecision
  | reused (cs : ClientState)
  | queued
  | created (cs : ClientState)
deriving DecidableEq, Repr

/-- main2.js `initializeClient` (lines 129-236) up to the suspension on
`client.initialize()` / `readyPromise`: reuse an existing `'ready'` record
(refreshing `lastActivity`), queue when `activeClients.size >=
MAX_INSTANCES`, or mint a fresh client, register it and start it.  Driver
events are modeled separately. -/
def initializeClient (uid : String) (freshId now : Nat) (st : Registry) :
    InitDecision × Registry :=
  match existingReady st uid with
  | some cs =>
    let cs' := { cs with lastActivity := now }
    (InitDecision.reused cs', mapSet st uid cs')
  | none =>
    if MAX_INSTANCES ≤ st.length then
      (InitDecision.queued, st)
    else
      let cs := freshRecord freshId now
      (InitDecision.created cs, mapSet st uid cs)

/-- main2.js `cleanupSession` (lines 238-255).  The `try` block
(session preservation, `client.destroy()`, the 1s sleep) swallows every
error in its `catch`; `activeClients.delete(uid)` sits after the
`try`/`catch` and inside `if (clientState)`, so it runs whether or not
`destroy` threw.  Returns the new registry and whether a destroy error was
logged. -/
def cleanupSession (destroyOk : Bool) (uid : String) (st : Registry) :
    Registry × Bool :=
  match mapGet st uid with
  | some _ => (mapDelete st uid, !destroyOk)
  | none => (st, false)

/-- The scan of main2.js `processQueue` lines 43-51: fold over the
`activeClients` entries in insertion order keeping the entry with the
smallest `lastActivity` *among `'ready'` records* (`state.lastActivity <
oldestTime && state.status === 'ready'`), starting from `oldestTime =
Date.now()`. -/
def findOldestReady (clients : List (String × ClientState))
    (best : Option String) (bestTime : Nat) : Option String × Nat :=
  match clients with
  | [] => (best, bestTime)
  | (uid, cs) :: rest =>
    if cs.lastActivity < bestTime ∧ cs.status = Status.ready then
      findOldestReady rest (some uid) cs.lastActivity
    else
      findOldestReady rest best bestTime

/-- main2.js `processQueue` lines 43-57: the record recycled to free a slot,
if any: the oldest `'ready'` record, and only when it has been idle longer
than `INACTIVITY_TIMEOUT` (otherwise the drain breaks). -/
def recycleCandidate (now : Nat) (st : Registry) : Option String :=
  match findOldestReady st none now with
  | (some uid, t) => if INACTIVITY_TIMEOUT < now - t then some uid else none
  | (none, _) => none

/-- One tick of the inactivity sweeper, main2.js lines 420-430: iterate the
`activeClients` entries and run `cleanupSession` (whose registry effect is
deleting that unique key) on every record with `now - lastActivity >
INACTIVITY_TIMEOUT` — the condition tests idle time only, never `status`. -/
def sweepTick (now : Nat) (st : Registry) : Registry :=
  match st with
  | [] => []
  | (uid, cs) :: rest =>
    if INACTIVITY_TIMEOUT < now - cs.lastActivity then
      sweepTick now rest
    else
      (uid, cs) :: sweepTick now rest

/-- How the external driver behaves after a fresh client is started:
either the event sequence reaches `ready` at time `t`, or the 45s
initialization deadline fires first (rejecting `readyPromise` and running
`cleanupSession`). -/
inductive DriverRun
  | reachesReady (t : Nat)
  | timesOut
deriving DecidableEq, Repr

/-- Effect of the main2.js `'ready'` handler (lines 198-203) on a record:
status `'ready'`, `lastActivity` stamped, `readyPromise` resolved. -/
def readyRecord (cs : ClientState) (t : Nat) : ClientState :=
  { cs with
    status := Status.ready,
    lastActivity := t,
    promise := PromiseState.resolved }

/-- main2.js `'disconnected'` handler (lines 206-217): the closed-over
`clientState` gets status `'disconnected'`, session preservation is
attempted, and `cleanupSession(uid)` runs.  The handler never touches
`readyPromise`. -/
def onDisconnected (destroyOk : Bool) (cs : ClientState) (uid : String)
    (st : Registry) : ClientState × Registry :=
  let cs1 := { cs with status := Status.disconnected }
  (cs1, (cleanupSession destroyOk uid (mapSet st uid cs1)).1)

/-- main2.js `/send-message` handler body (lines 258-290) for tenant `uid`:
`await initializeClient(uid)` (acquire!), then the `status !== 'ready'`
check, then `client.sendMessage` (outcome `sendOk`) and a `lastActivity`
refresh; any throw lands in the `catch`, which runs `cleanupSession(uid)`
and answers 500.  The chat-id normalisation of `number` touches no session
state.  A queued acquire suspends until a later drain; we model that
suspension as a response with code 0. -/
def sendMessageCore (uid : String) (freshId now : Nat) (run : DriverRun)
    (sendOk : Bool) (st : Registry) : Response × Registry :=
  match initializeClient uid freshId now st with
  | (InitDecision.reused cs, st1) => afterAcquire uid cs sendOk now st1
  | (InitDecision.queued, st1) =>
    ({ code := 0, status := "suspended", body := "awaiting queue drain" }, st1)
  | (InitDecision.created cs, st1) =>
    match run with
    | DriverRun.reachesReady t =>
      let csR := readyRecord cs t
      afterAcquire uid csR sendOk now (mapSet st1 uid csR)
    | DriverRun.timesOut =>
      ({ code := 500, status := "error", body := "Failed to send message" },
        (cleanupSession true uid st1).1)
where
  /-- Continuation after the acquired record is known. -/
  afterAcquire (uid : String) (cs : ClientState) (sendOk : Bool) (now : Nat)
      (st : Registry) : Response × Registry :=
    if cs.status = Status.ready then
      if sendOk then
        ({ code := 200, status := "success", body := "Message sent successfully" },
          mapSet st uid { cs with lastActivity := now })
      else
        ({ code := 500, status := "error", body := "Failed to send message" },
          (cleanupSession true uid st).1)
    else
      ({ code := 500, status := "error", body := "Failed to send message" },
        (cleanupSession true uid st).1)

/-- main2.js `/disconnect` handler body (lines 377-396): no record answers
`{status:'disconnected'}` untouched; with a record it calls
`clientState.client.destroy()` *directly inside the endpoint's `try`*
(outcome `destroyOk`) before `cleanupSession`, so a throwing destroy skips
the cleanup and answers 500. -/
def disconnectCore (destroyOk : Bool) (uid : String) (st : Registry) :
    Response × Registry :=
  match mapGet st uid with
  | some _ =>
    if destroyOk then
      ({ code := 200, status := "disconnected", body := "" },
        (cleanupSession true uid st).1)
    else
      ({ code := 500, status := "error", body := "Failed to disconnect" }, st)
  | none => ({ code := 200, status := "disconnected", body := "" }, st)

/-- JS status string of a record, as reported by `/init` and
`/client-status`. -/
def statusName : Status → String
  | Status.initializing => "initializing"
  | Status.pending => "pending"
  | Status.authenticated => "authenticated"
  | Status.ready => "ready"
  | Status.disconnected => "disconnected"
  | Status.resuming => "resuming"
  | Status.error => "error"

/-- main2.js `/init` handler body (lines 398-418): reuse any record that is
not `'disconnected'`, otherwise run `initializeClient` and await its
outcome (ready, queued-suspension, or the deadline error path). -/
def initCore (uid : String) (freshId now : Nat) (run : DriverRun)
    (st : Registry) : Response × Registry :=
  match mapGet st uid with
  | some cs =>
    if cs.status = Status.disconnected then
      initAcquire uid freshId now run st
    else
      ({ code := 200, status := statusName cs.status, body := "" }, st)
  | none => initAcquire uid freshId now run st
where
  /-- Arm `clientState = await initializeClient(uid)` of the handler. -/
  initAcquire (uid : String) (freshId now : Nat) (run : DriverRun)
      (st : Registry) : Response × Registry :=
    match initializeClient uid freshId now st with
    | (InitDecision.reused cs, st1) =>
      ({ code := 200, status := statusName cs.status, body := "" }, st1)
    | (InitDecision.queued, st1) =>
      ({ code := 0, status := "suspended", body := "awaiting queue drain" }, st1)
    | (InitDecision.created cs, st1) =>
      match run with
      | DriverRun.reachesReady t =>
        ({ code := 200, status := "ready", body := "" },
          mapSet st1 uid (readyRecord cs t))
      | DriverRun.timesOut =>
        ({ code := 500,
           status := "error",
           body := "Failed to initialize WhatsApp client" },
          (cleanupSession true uid st1).1)

/-- Endpoint `/init` behind `authMiddleware`. -/
def initEndpoint (authHeader : Option String) (freshId now : Nat)
    (run : DriverRun) (st : Registry) : Response × Registry :=
  match authToken authHeader with
  | none => (response401, st)
  | some uid => initCore uid freshId now run st

/-- Endpoint `/send-message` behind `authMiddleware`. -/
def sendMessageEndpoint (authHeader : Option String) (freshId now : Nat)
    (run : DriverRun) (sendOk : Bool) (st : Registry) : Response × Registry :=
  match authToken authHeader with
  | none => (response401, st)
  | some uid => sendMessageCore uid freshId now run sendOk st

/-- Endpoint `/disconnect` behind `authMiddleware`. -/
def disconnectEndpoint (authHeader : Option String) (destroyOk : Bool)
    (st : Registry) : Response × Registry :=
  match authToken authHeader with
  | none => (response401, st)
  | some uid => disconnectCore destroyOk uid st

end Main2

namespace Part0

/-- Constant `MAX_INSTANCES` in part_000 (line 10). -/
def MAX_INSTANCES : Nat := 2

/-- Constant `MAX_RETRIES = 2` local to part_000's `initializeClient`. -/
def MAX_RETRIES : Nat := 2

/-- The 2000ms fixed delay before every retry in part_000 (line 218). -/
def RETRY_DELAY : Nat := 2000

/-- part_000 `clientState` (lines 152-160): client handle id, status, QR,
last activity, and the `readyPromise` with its captured
`readyResolve`/`readyReject`. -/
structure ClientState where
  clientId : Nat
  status : Status
  qrCode : Option String
  lastActivity : Nat
  promise : PromiseState
deriving DecidableEq, Repr

/-- The `activeClients` map of part_000. -/
abbrev Registry := List (String × ClientState)

/-- part_000 `cleanupSession` (lines 49-79): `client.destroy()` inside its
own `try`/`catch` (errors logged), then `activeClients.delete(uid)`
*unconditionally* (it sits outside the `if (clientState)` guard); the
session-file removal is commented out.  Returns the registry and whether a
destroy error was logged. -/
def cleanupSession (destroyOk : Bool) (uid : String) (st : Registry) :
    Registry × Bool :=
  match mapGet st uid with
  | some _ => (mapDelete st uid, !destroyOk)
  | none => (mapDelete st uid, false)

/-- The scan of part_000 `initializeClient` lines 103-111: the entry with
the smallest `lastActivity` (strictly below the running best, which starts
at `Date.now()`) — with **no status condition**. -/
def findOldest (clients : List (String × ClientState))
    (best : Option String) (bestTime : Nat) : Option String × Nat :=
  match clients with
  | [] => (best, bestTime)
  | (uid, cs) :: rest =>
    if cs.lastActivity < bestTime then
      findOldest rest (some uid) cs.lastActivity
    else
      findOldest rest best bestTime

/-- part_000 `initializeClient` lines 100-116: when
`activeClients.size >= MAX_INSTANCES`, find the oldest client by
`lastActivity` alone and `cleanupSession` it (destroy errors are swallowed
inside `cleanupSession`, so the registry effect is the same either way). -/
def evictIfFull (now : Nat) (st : Registry) : Registry :=
  if MAX_INSTANCES ≤ st.length then
    match (findOldest st none now).1 with
    | some oldest => (cleanupSession true oldest st).1
    | none => st
  else st

/-- part_000 `initializeClient` lines 86-98: reuse a `'ready'` record as-is;
tear down a `'disconnected'`/`'error'` record first (the unconditional
cleanup at line 94 is commented out); otherwise leave any mid-handshake
record in place and fall through to creation. -/
def preCheck (uid : String) (st : Registry) :
    Option ClientState × Registry :=
  match mapGet st uid with
  | some cs =>
    if cs.status = Status.ready then (some cs, st)
    else if cs.status = Status.disconnected ∨ cs.status = Status.error then
      (none, (cleanupSession true uid st).1)
    else (none, st)
  | none => (none, st)

/-- Outcome of one creation attempt: `client.initialize()` threw
(`startFails`), the driver event stream reached `ready` at time `t`, or the
init deadline fired first (its handler rejects `readyPromise` and runs
`cleanupSession`; the rejected `await readyPromise` is then caught by the
same `catch` block that handles a throwing `initialize`). -/
inductive AttemptOutcome
  | startFails
  | ready (t : Nat)
  | timesOut
deriving DecidableEq, Repr

/-- Result of part_000 `initializeClient`: the value returned or error
thrown, the final registry, the next unused driver-handle id, the ids of
the driver handles created (one per attempt, in order), and the total
retry-delay slept. -/
structure InitResult where
  result : Except String ClientState
  registry : Registry
  nextId : Nat
  handleIds : List Nat
  delayMs : Nat
deriving Repr

/-- part_000 `initializeClient(uid, retryCount)` (lines 82-224).  The body:
early return of a `'ready'` record, stale-record cleanup, eviction at
capacity, creation of a fresh `Client` (handle id `nextId`), registration,
`await client.initialize()` and `await readyPromise` (outcome
`outcome retryCount`).  A throw reaches the `catch` (lines 211-223):
`activeClients.delete(uid)`, then a 2000ms sleep and a recursive call with
`retryCount + 1` while `retryCount < MAX_RETRIES`, else rethrow. -/
def initializeClient (outcome : Nat → AttemptOutcome) (sessionExists : Bool)
    (uid : String) (now : Nat) (st : Registry) (nextId retryCount : Nat) :
    InitResult :=
  match preCheck uid st with
  | (some cs, st1) =>
    { result := Except.ok cs, registry := st1, nextId := nextId,
      handleIds := [], delayMs := 0 }
  | (none, st1) =>
    let st2 := evictIfFull now st1
    let cs : ClientState :=
      { clientId := nextId,
        status := if sessionExists then Status.resuming else Status.initializing,
        qrCode := none,
        lastActivity := now,
        promise := PromiseState.pending }
    let st3 := mapSet st2 uid cs
    match outcome retryCount with
    | AttemptOutcome.ready t =>
      let csR :=
        { cs with
          status := Status.ready,
          lastActivity := t,
          promise := PromiseState.resolved }
      { result := Except.ok csR, registry := mapSet st3 uid csR,
        nextId := nextId + 1, handleIds := [nextId], delayMs := 0 }
    | AttemptOutcome.startFails =>
      let st4 := mapDelete st3 uid
      if h : retryCount < MAX_RETRIES then
        let r := initializeClient outcome sessionExists uid now st4
          (nextId + 1) (retryCount + 1)
        { r with handleIds := nextId :: r.handleIds,
                 delayMs := RETRY_DELAY + r.delayMs }
      else
        { result := Except.error "Client initialization failed",
          registry := st4, nextId := nextId + 1, handleIds := [nextId],
          delayMs := 0 }
    | AttemptOutcome.timesOut =>
      let st4 := mapDelete st3 uid
      if h : retryCount < MAX_RETRIES then
        let r := initializeClient outcome sessionExists uid now st4
          (nextId + 1) (retryCount + 1)
        { r with handleIds := nextId :: r.handleIds,
                 delayMs := RETRY_DELAY + r.delayMs }
      else
        { result := Except.error "Client initialization timeout",
          registry := st4, nextId := nextId + 1, handleIds := [nextId],
          delayMs := 0 }
termination_by MAX_RETRIES - retryCount
decreasing_by
  all_goals simp only [MAX_RETRIES] at *; omega

/-- part_000 `client.on('disconnected')` handler (lines 193-198) acting on
the closed-over `clientState`: set status `'disconnected'`, clear the init
timeout, `activeClients.delete(uid)`.  No `cleanupSession`, no
`client.destroy()`, and `readyReject` is never called. -/
def onDisconnected (cs : ClientState) (uid : String) (st : Registry) :
    ClientState × Registry :=
  let cs1 := { cs with status := Status.disconnected }
  (cs1, mapDelete st uid)

end Part0

namespace Part1

/-- part_001 `clientState` (lines 170-179); the `instance` pool membership
is tracked by the pool component and does not affect the registry logic
embedded here. -/
structure ClientState where
  clientId : Nat
  status : Status
  qrCode : Option String
  lastActivity : Nat
  promise : PromiseState
deriving DecidableEq, Repr

/-- The `activeClients` map of part_001. -/
abbrev Registry := List (String × ClientState)

/-- part_001 `cleanupSession` (lines 90-118): save the session, drop the
uid from the instance pool, `client.destroy()` inside a `try`/`catch`
(errors logged), then `activeClients.delete(uid)` — all guarded by
`if (clientState)`.  Returns the registry and whether a destroy error was
logged. -/
def cleanupSession (destroyOk : Bool) (uid : String) (st : Registry) :
    Registry × Bool :=
  match mapGet st uid with
  | some _ => (mapDelete st uid, !destroyOk)
  | none => (st, false)

end Part1

namespace Part2

/-- part_002 `clientState` (lines 132-137): no `readyPromise` exists in
this variant. -/
structure ClientState where
  clientId : Nat
  status : Status
  qrCode : Option String
  lastActivity : Nat
deriving DecidableEq, Repr

/-- The `activeClients` map of part_002. -/
abbrev Registry := List (String × ClientState)

/-- part_002 `cleanupSession` (lines 184-194): inside one `try`,
`fs.remove` of the session directory (attempted only when the path exists,
outcome `removeOk`) and *then* `activeClients.delete(uid)`; the `catch`
only logs.  So a throwing `fs.remove` skips the registry delete.  No
`client.destroy()` is called here.  Returns the registry and whether a
removal error was logged. -/
def cleanupSession (sessionFilesExist removeOk : Bool) (uid : String)
    (st : Registry) : Registry × Bool :=
  if sessionFilesExist && !removeOk then (st, true)
  else (mapDelete st uid, false)

/-- part_002 `initializeClient` (lines 107-181): **no existing-record check
and no capacity check** — it unconditionally builds a fresh `Client`
(handle id `freshId`), registers the record, wires the event handlers, and
awaits `client.initialize()` (outcome `initOk`); on a throw it runs
`cleanupSession` and rethrows. -/
def initializeClient (uid : String) (freshId now : Nat) (initOk : Bool)
    (sessionFilesExist removeOk : Bool) (st : Registry) :
    Except String ClientState × Registry :=
  let cs : ClientState :=
    { clientId := freshId,
      status := Status.initializing,
      qrCode := none,
      lastActivity := now }
  let st1 := mapSet st uid cs
  if initOk then (Except.ok cs, st1)
  else (Except.error "init failed",
    (cleanupSession sessionFilesExist removeOk uid st1).1)

/-- JS falsiness of an optional request-body string: absent or empty. -/
def jsFalsyStr (s : Option String) : Bool :=
  match s with
  | none => true
  | some str => str == ""

/-- Returns `true` when the record for `uid` is absent or its status is not
`'ready'` — the guard part_002's `/send-message` rejects on. -/
def staleFor (st : Registry) (uid : String) : Bool :=
  match mapGet st uid with
  | none => true
  | some cs => cs.status != Status.ready

/-- part_002 `/send-message` handler body (lines 221-257): 400 when
`number`/`message` is falsy; 400 `'WhatsApp client not ready'` when the
record is absent or not `'ready'` (no `initializeClient` call, no cleanup
— nothing is mutated); otherwise `client.sendMessage` (outcome `sendOk`)
followed by a `lastActivity` refresh on success, or a 500 (again with no
cleanup) on a send failure. -/
def sendMessageCore (uid : String) (number message : Option String)
    (now : Nat) (sendOk : Bool) (st : Registry) : Response × Registry :=
  if jsFalsyStr number || jsFalsyStr message then
    ({ code := 400, status := "error",
       body := "Phone number and message are required" }, st)
  else
    match mapGet st uid with
    | none =>
      ({ code := 400, status := "error",
         body := "WhatsApp client not ready. Please initialize first." }, st)
    | some cs =>
      if cs.status != Status.ready then
        ({ code := 400, status := "error",
           body := "WhatsApp client not ready. Please initialize first." }, st)
      else if sendOk then
        ({ code := 200, status := "success",
           body := "Message sent successfully" },
          mapSet st uid { cs with lastActivity := now })
      else
        ({ code := 500, status := "error",
           body := "Failed to send message" }, st)

end Part2

/-! ## Lemmas about the registry map -/

theorem mapGet_mapSet_self {α : Type} (m : List (String × α)) (k : String)
    (v : α) : mapGet (mapSet m k v) k = some v := by
  induction m with
  | nil => simp [mapGet, mapSet]
  | cons e rest ih =>
    by_cases h : e.1 = k <;> simp [mapGet, mapSet, h, ih]

theorem mapGet_mapDelete_self {α : Type} (m : List (String × α))
    (k : String) : mapGet (mapDelete m k) k = none := by
  induction m with
  | nil => simp [mapGet, mapDelete]
  | cons e rest ih =>
    by_cases h : e.1 = k <;> simp [mapGet, mapDelete, h, ih]

theorem mapGet_mapDelete_of_none {α : Type} (m : List (String × α))
    (k u : String) (h : mapGet m k = none) :
    mapGet (mapDelete m u) k = none := by
  induction m with
  | nil => simp [mapDelete, mapGet]
  | cons e rest ih =>
    by_cases he : e.1 = k
    · simp [mapGet, he] at h
    · simp [mapGet, he] at h
      by_cases hu : e.1 = u <;> simp [mapDelete, hu, mapGet, he, ih h]

theorem length_mapSet_le {α : Type} (m : List (String × α)) (k : String)
    (v : α) : (mapSet m k v).length ≤ m.length + 1 := by
  induction m with
  | nil => simp [mapSet]
  | cons e rest ih =>
    by_cases h : e.1 = k
    · simp [mapSet, h]
    · simp only [mapSet, if_neg h, List.length_cons]
      omega

theorem length_mapSet_of_some {α : Type} (m : List (String × α))
    (k : String) (v w : α) (h : mapGet m k = some w) :
    (mapSet m k v).length = m.length := by
  induction m with
  | nil => simp [mapGet] at h
  | cons e rest ih =>
    by_cases he : e.1 = k
    · simp [mapSet, he]
    · simp [mapGet, he] at h
      simp [mapSet, he, ih h]

theorem mapGet_eq_none_of_not_mem_keys {α : Type} (m : List (String × α))
    (k : String) (h : k ∉ m.map Prod.fst) : mapGet m k = none := by
  induction m with
  | nil => simp [mapGet]
  | cons e rest ih =>
    simp only [List.map_cons, List.mem_cons, not_or] at h
    have he : e.1 ≠ k := fun hk => h.1 hk.symm
    simp [mapGet, he, ih h.2]

/-! ## Helper lemmas about the embedded functions -/

theorem Main2.existingReady_some {st : Main2.Registry} {uid : String}
    {cs : Main2.ClientState} (h : Main2.existingReady st uid = some cs) :
    mapGet st uid = some cs ∧ cs.status = Status.ready := by
  unfold Main2.existingReady at h
  cases hg : mapGet st uid with
  | none => rw [hg] at h; simp at h
  | some c =>
    rw [hg] at h
    by_cases hr : c.status = Status.ready
    · simp only [if_pos hr, Option.some.injEq] at h
      subst h
      exact ⟨rfl, hr⟩
    · simp only [if_neg hr] at h
      simp at h

theorem Main2.existingReady_of_some {st : Main2.Registry} {uid : String}
    {cs : Main2.ClientState} (hg : mapGet st uid = some cs)
    (hr : cs.status = Status.ready) : Main2.existingReady st uid = some cs := by
  unfold Main2.existingReady
  rw [hg]
  simp only [if_pos hr]

theorem Main2.existingReady_of_not_ready {st : Main2.Registry} {uid : String}
    {cs : Main2.ClientState} (hg : mapGet st uid = some cs)
    (hr : cs.status ≠ Status.ready) : Main2.existingReady st uid = none := by
  unfold Main2.existingReady
  rw [hg]
  simp only [if_neg hr]

/-! ## C1 -/

/-- C1, amended: in main2.js, `initializeClient` creates a new client only
after the `activeClients.size >= MAX_INSTANCES` check fails (otherwise it
reuses or queues), so a registry within the capacity `MAX_INSTANCES = 2`
stays within it across every acquire.  (part_002's `initializeClient`
performs no capacity check at all; see the counterexample.) -/
theorem c1_main2_capacity_preserved (uid : String) (freshId now : Nat)
    (st : Main2.Registry) (h : st.length ≤ Main2.MAX_INSTANCES) :
    ((Main2.initializeClient uid freshId now st).2).length
      ≤ Main2.MAX_INSTANCES := by
  unfold Main2.initializeClient
  cases hex : Main2.existingReady st uid with
  | some cs =>
    obtain ⟨hg, _⟩ := Main2.existingReady_some hex
    simpa [length_mapSet_of_some st uid _ cs hg] using h
  | none =>
    by_cases hcap : Main2.MAX_INSTANCES ≤ st.length
    · simpa [hcap] using h
    · have hle := length_mapSet_le st uid (Main2.freshRecord freshId now)
      simp only [if_neg hcap]
      simp only [Main2.MAX_INSTANCES] at *
      omega

/-- Witness for C1: a concrete acquire on the empty registry keeps the
registry within capacity. -/
theorem c1_main2_capacity_preserved_witness :
    ([] : Main2.Registry).length ≤ Main2.MAX_INSTANCES
    ∧ ((Main2.initializeClient "t" 1 0 ([] : Main2.Registry)).2).length
        ≤ Main2.MAX_INSTANCES :=
  ⟨by decide, c1_main2_capacity_preserved "t" 1 0 [] (by decide)⟩

/-- C1 counterexample: part_002's `initializeClient` has no capacity check,
so three successful acquires for three tenants leave three live records —
more than the configured capacity of 2. -/
theorem c1_part2_no_capacity_check_counterexample :
    ¬ (((Part2.initializeClient "c" 3 0 true true true
          ((Part2.initializeClient "b" 2 0 true true true
            ((Part2.initializeClient "a" 1 0 true true true
              ([] : Part2.Registry)).2)).2)).2).length ≤ 2) := by
  decide

/-! ## C2 -/

theorem Main2.findOldestReady_spec (clients : List (String × Main2.ClientState)) :
    ∀ (best : Option String) (bestTime : Nat) (uid : String) (t : Nat),
      Main2.findOldestReady clients best bestTime = (some uid, t) →
      (∃ cs, (uid, cs) ∈ clients ∧ cs.status = Status.ready
          ∧ cs.lastActivity = t)
        ∨ (best = some uid ∧ bestTime = t) := by
  induction clients with
  | nil =>
    intro best bestTime uid t h
    right
    unfold Main2.findOldestReady at h
    exact ⟨congrArg Prod.fst h, congrArg Prod.snd h⟩
  | cons e rest ih =>
    intro best bestTime uid t h
    obtain ⟨u, c⟩ := e
    unfold Main2.findOldestReady at h
    by_cases hc : c.lastActivity < bestTime ∧ c.status = Status.ready
    · rw [if_pos hc] at h
      rcases ih (some u) c.lastActivity uid t h with hmem | ⟨hb, ht⟩
      · obtain ⟨cs, hin, hr, hla⟩ := hmem
        exact Or.inl ⟨cs, List.mem_cons_of_mem _ hin, hr, hla⟩
      · cases hb
        exact Or.inl ⟨c, List.mem_cons_self _ _, hc.2, ht⟩
    · rw [if_neg hc] at h
      rcases ih best bestTime uid t h with hmem | hb
      · obtain ⟨cs, hin, hr, hla⟩ := hmem
        exact Or.inl ⟨cs, List.mem_cons_of_mem _ hin, hr, hla⟩
      · exact Or.inr hb

/-- C2, amended: in main2.js's `processQueue`, a record recycled to free a
slot is always in state `'ready'` (and idle beyond `INACTIVITY_TIMEOUT`),
so mid-handshake records are protected there; in part_000's
`initializeClient`, admission at full capacity instead tears down the
record with the oldest `lastActivity` regardless of its state, so a
mid-handshake (`'pending'`) record can be evicted (see the
counterexample). -/
theorem c2_main2_recycle_candidate_ready (now : Nat) (st : Main2.Registry)
    (uid : String) (h : Main2.recycleCandidate now st = some uid) :
    ∃ cs, (uid, cs) ∈ st ∧ cs.status = Status.ready
      ∧ Main2.INACTIVITY_TIMEOUT < now - cs.lastActivity := by
  unfold Main2.recycleCandidate at h
  rcases hf : Main2.findOldestReady st none now with ⟨o, t⟩
  rw [hf] at h
  cases o with
  | none => simp at h
  | some u =>
    by_cases hidle : Main2.INACTIVITY_TIMEOUT < now - t
    · simp only [if_pos hidle, Option.some.injEq] at h
      subst h
      rcases Main2.findOldestReady_spec st none now u t hf with hmem | ⟨hb, _⟩
      · obtain ⟨cs, hin, hr, hla⟩ := hmem
        exact ⟨cs, hin, hr, by rwa [hla]⟩
      · cases hb
    · simp only [if_neg hidle] at h
      simp at h

/-- Witness for C2: on a concrete registry holding one stale ready record,
the recycle candidate is that record, and it is ready and idle. -/
theorem c2_main2_recycle_candidate_ready_witness :
    Main2.recycleCandidate 400000
        ([("a", { clientId := 1, status := Status.ready, qrCode := none,
                  lastActivity := 0, promise := PromiseState.resolved })] :
          Main2.Registry)
      = some "a"
    ∧ ∃ cs : Main2.ClientState,
        ("a", cs) ∈ ([("a", { clientId := 1, status := Status.ready,
                              qrCode := none, lastActivity := 0,
                              promise := PromiseState.resolved })] :
                      Main2.Registry)
        ∧ cs.status = Status.ready
        ∧ Main2.INACTIVITY_TIMEOUT < 400000 - cs.lastActivity :=
  ⟨by decide, c2_main2_recycle_candidate_ready 400000 _ "a" (by decide)⟩

/-- C2 counterexample: in part_000, with the pool full of a mid-handshake
(`'pending'`) record for tenant `a` (oldest `lastActivity`) and a ready
record for tenant `b`, admission eviction destroys `a` — a record that is
not READY. -/
theorem c2_part0_evicts_mid_handshake_counterexample :
    mapGet
        (Part0.evictIfFull 1000
          [("a", { clientId := 1, status := Status.pending,
                   qrCode := some "qr", lastActivity := 5,
                   promise := PromiseState.pending }),
           ("b", { clientId := 2, status := Status.ready, qrCode := none,
                   lastActivity := 10, promise := PromiseState.resolved })])
        "a" = none
    ∧ Status.pending ≠ Status.ready := by
  constructor
  · decide
  · decide

/-! ## C3 -/

/-- C3, amended: main2.js `initializeClient` is idempotent only for READY
records — when the tenant's record is `'ready'`, a second acquire returns
that same record (same driver handle, `lastActivity` refreshed) and mints
nothing new; but when the record is mid-handshake (not `'ready'`) and a
slot is free, a second acquire mints a *fresh* driver handle and overwrites
the record, instead of attaching to the in-flight handle (see the
counterexample). -/
theorem c3_main2_acquire_idempotent_ready_only (uid : String)
    (freshId now : Nat) (st : Main2.Registry) (cs : Main2.ClientState)
    (hg : mapGet st uid = some cs) :
    (cs.status = Status.ready →
      Main2.initializeClient uid freshId now st
        = (Main2.InitDecision.reused { cs with lastActivity := now },
           mapSet st uid { cs with lastActivity := now }))
    ∧ (cs.status ≠ Status.ready → st.length < Main2.MAX_INSTANCES →
      Main2.initializeClient uid freshId now st
        = (Main2.InitDecision.created (Main2.freshRecord freshId now),
           mapSet st uid (Main2.freshRecord freshId now))) := by
  constructor
  · intro hr
    unfold Main2.initializeClient
    rw [Main2.existingReady_of_some hg hr]
  · intro hnr hcap
    unfold Main2.initializeClient
    rw [Main2.existingReady_of_not_ready hg hnr]
    rw [if_neg (by omega)]

/-- Witness for C3: with a concrete ready record for `a`, a second acquire
reuses it. -/
theorem c3_main2_acquire_idempotent_ready_only_witness :
    mapGet ([("a", { clientId := 1, status := Status.ready, qrCode := none,
                     lastActivity := 7, promise := PromiseState.resolved })] :
              Main2.Registry) "a"
      = some { clientId := 1, status := Status.ready, qrCode := none,
               lastActivity := 7, promise := PromiseState.resolved }
    ∧ Main2.initializeClient "a" 2 99
        ([("a", { clientId := 1, status := Status.ready, qrCode := none,
                  lastActivity := 7, promise := PromiseState.resolved })] :
          Main2.Registry)
      = (Main2.InitDecision.reused
           { clientId := 1, status := Status.ready, qrCode := none,
             lastActivity := 99, promise := PromiseState.resolved },
         [("a", { clientId := 1, status := Status.ready, qrCode := none,
                  lastActivity := 99, promise := PromiseState.resolved })]) :=
  ⟨by decide,
   by
    have h := (c3_main2_acquire_idempotent_ready_only "a" 2 99 _ _
      (by decide : mapGet
        ([("a", { clientId := 1, status := Status.ready, qrCode := none,
                  lastActivity := 7, promise := PromiseState.resolved })] :
          Main2.Registry) "a"
        = some { clientId := 1, status := Status.ready, qrCode := none,
                 lastActivity := 7, promise := PromiseState.resolved })).1 rfl
    simpa using h⟩

/-- C3 counterexample: tenant `a` has a record mid-handshake (`'pending'`,
driver handle 1, completion handle still pending).  A second acquire does
not return that record's handle: it creates and registers a brand-new
client with fresh driver handle 2, contradicting per-tenant
single-flight for in-progress records. -/
theorem c3_main2_second_acquire_new_handle_counterexample :
    (mapGet ([("a", { clientId := 1, status := Status.pending,
                      qrCode := some "qr", lastActivity := 10,
                      promise := PromiseState.pending })] :
               Main2.Registry) "a").map Main2.ClientState.status
      = some Status.pending
    ∧ Main2.initializeClient "a" 2 100
        ([("a", { clientId := 1, status := Status.pending,
                  qrCode := some "qr", lastActivity := 10,
                  promise := PromiseState.pending })] : Main2.Registry)
      = (Main2.InitDecision.created (Main2.freshRecord 2 100),
         [("a", Main2.freshRecord 2 100)])
    ∧ (Main2.freshRecord 2 100).clientId ≠ 1 := by
  refine ⟨by decide, by decide, by decide⟩

/-! ## C4 -/

/-- C4, amended: the `requires state == READY, fails without mutating`
contract holds for part_002's `/send-message` only: there, for every
tenant whose record is absent or not `'ready'` (with `number` and
`message` supplied), the call answers the 400 `not ready` error and leaves
the registry exactly unchanged.  main2.js and part_000 instead run
`initializeClient` from inside `/send-message`, so a send for an absent
tenant can create a record and even succeed, and a failing send tears the
tenant's record down (see the counterexample). -/
theorem c4_part2_send_requires_ready (uid number message : String)
    (now : Nat) (sendOk : Bool) (st : Part2.Registry)
    (hn : number ≠ "") (hm : message ≠ "")
    (hs : Part2.staleFor st uid = true) :
    Part2.sendMessageCore uid (some number) (some message) now sendOk st
      = ({ code := 400, status := "error",
           body := "WhatsApp client not ready. Please initialize first." },
         st) := by
  unfold Part2.sendMessageCore
  have hn' : Part2.jsFalsyStr (some number) = false := by
    simp [Part2.jsFalsyStr, hn]
  have hm' : Part2.jsFalsyStr (some message) = false := by
    simp [Part2.jsFalsyStr, hm]
  rw [hn', hm']
  unfold Part2.staleFor at hs
  cases hg : mapGet st uid with
  | none => simp
  | some cs =>
    rw [hg] at hs
    simp only at hs
    simp only [hg]
    simp [hs]

/-- Witness for C4: a concrete mid-handshake record for `a` in part_002,
a send answers 400 and the registry is untouched. -/
theorem c4_part2_send_requires_ready_witness :
    ("123" : String) ≠ ""
    ∧ ("hi" : String) ≠ ""
    ∧ Part2.staleFor
        ([("a", { clientId := 1, status := Status.pending,
                  qrCode := some "qr", lastActivity := 0 })] :
          Part2.Registry) "a" = true
    ∧ Part2.sendMessageCore "a" (some "123") (some "hi") 50 true
        ([("a", { clientId := 1, status := Status.pending,
                  qrCode := some "qr", lastActivity := 0 })] :
          Part2.Registry)
      = ({ code := 400, status := "error",
           body := "WhatsApp client not ready. Please initialize first." },
         [("a", { clientId := 1, status := Status.pending,
                  qrCode := some "qr", lastActivity := 0 })]) :=
  ⟨by decide, by decide, by decide,
   c4_part2_send_requires_ready "a" "123" "hi" 50 true _
     (by decide) (by decide) (by decide)⟩

/-- C4 counterexample: in main2.js, `/send-message` for a tenant with *no*
record does not fail with a stale-session error: it acquires a session on
the spot (well-behaved driver), the send succeeds, and a brand-new record
for the tenant is left in the registry — the call both succeeded and
mutated state. -/
theorem c4_main2_send_acquires_counterexample :
    (Main2.sendMessageCore "a" 1 10 (Main2.DriverRun.reachesReady 5) true
        ([] : Main2.Registry)).1.status = "success"
    ∧ (mapGet (Main2.sendMessageCore "a" 1 10
          (Main2.DriverRun.reachesReady 5) true
          ([] : Main2.Registry)).2 "a") ≠ none := by
  refine ⟨by decide, by decide⟩

/-! ## C5 -/

theorem Part0.preCheck_none {uid : String} {st : Part0.Registry}
    (h : mapGet st uid = none) : Part0.preCheck uid st = (none, st) := by
  unfold Part0.preCheck
  rw [h]

theorem Part0.initializeClient_allFail (outcome : Nat → Part0.AttemptOutcome)
    (hout : ∀ k, outcome k = Part0.AttemptOutcome.startFails)
    (se : Bool) (uid : String) (now : Nat) :
    ∀ (k rc : Nat), rc + k = Part0.MAX_RETRIES →
    ∀ (st : Part0.Registry) (n : Nat), mapGet st uid = none →
      (Part0.initializeClient outcome se uid now st n rc).result
          = Except.error "Client initialization failed"
      ∧ mapGet (Part0.initializeClient outcome se uid now st n rc).registry
          uid = none
      ∧ (Part0.initializeClient outcome se uid now st n rc).handleIds
          = List.range' n (k + 1)
      ∧ (Part0.initializeClient outcome se uid now st n rc).delayMs
          = Part0.RETRY_DELAY * k := by
  have hMR : Part0.MAX_RETRIES = 2 := rfl
  intro k
  induction k with
  | zero =>
    intro rc hrc st n hg
    have hlt : ¬ rc < Part0.MAX_RETRIES := by omega
    unfold Part0.initializeClient
    rw [Part0.preCheck_none hg, hout rc]
    simp only [dif_neg hlt]
    exact ⟨by simp, by simp [mapGet_mapDelete_self],
      by simp [List.range'_one], by simp⟩
  | succ k ih =>
    intro rc hrc st n hg
    have hlt : rc < Part0.MAX_RETRIES := by omega
    have ihr := ih (rc + 1) (by omega)
      (mapDelete (mapSet (Part0.evictIfFull now st) uid
        { clientId := n,
          status := if se then Status.resuming else Status.initializing,
          qrCode := none,
          lastActivity := now,
          promise := PromiseState.pending }) uid)
      (n + 1) (mapGet_mapDelete_self _ _)
    unfold Part0.initializeClient
    rw [Part0.preCheck_none hg, hout rc]
    simp only [dif_pos hlt]
    refine ⟨ihr.1, ihr.2.1, ?_, ?_⟩
    · rw [List.range'_succ]
      simp only [ihr.2.2.1]
    · simp only [ihr.2.2.2, Nat.mul_succ]
      exact Nat.add_comm _ _

/-- C5, confirmed: in part_000's `initializeClient`, when driver creation /
`client.initialize()` fails on every attempt, exactly `MAX_RETRIES = 2`
retries happen after the initial attempt (3 fresh driver handles
`n, n+1, n+2` in total), each retry preceded by the fixed 2000ms delay
(total `2 * RETRY_DELAY`), the caller gets the initialization error
(`DriverInitFailure`), and no record for the tenant remains in the
registry. -/
theorem c5_part0_retry_exhaustion (outcome : Nat → Part0.AttemptOutcome)
    (hout : ∀ k, outcome k = Part0.AttemptOutcome.startFails)
    (se : Bool) (uid : String) (now n : Nat) (st : Part0.Registry)
    (hg : mapGet st uid = none) :
    (Part0.initializeClient outcome se uid now st n 0).result
        = Except.error "Client initialization failed"
    ∧ mapGet (Part0.initializeClient outcome se uid now st n 0).registry
        uid = none
    ∧ (Part0.initializeClient outcome se uid now st n 0).handleIds
        = [n, n + 1, n + 2]
    ∧ (Part0.initializeClient outcome se uid now st n 0).delayMs
        = 2 * Part0.RETRY_DELAY := by
  have h := Part0.initializeClient_allFail outcome hout se uid now 2 0 rfl
    st n hg
  refine ⟨h.1, h.2.1, ?_, ?_⟩
  · rw [h.2.2.1, List.range'_succ, List.range'_succ, List.range'_one]
  · rw [h.2.2.2, Nat.mul_comm]

/-- Witness for C5: concrete always-failing driver, fresh tenant on the
empty registry. -/
theorem c5_part0_retry_exhaustion_witness :
    mapGet ([] : Part0.Registry) "t" = none
    ∧ (Part0.initializeClient (fun _ => Part0.AttemptOutcome.startFails)
          false "t" 0 [] 1 0).result
        = Except.error "Client initialization failed"
    ∧ mapGet (Part0.initializeClient (fun _ => Part0.AttemptOutcome.startFails)
          false "t" 0 [] 1 0).registry "t" = none
    ∧ (Part0.initializeClient (fun _ => Part0.AttemptOutcome.startFails)
          false "t" 0 [] 1 0).handleIds = [1, 2, 3]
    ∧ (Part0.initializeClient (fun _ => Part0.AttemptOutcome.startFails)
          false "t" 0 [] 1 0).delayMs = 2 * Part0.RETRY_DELAY := by
  have h := c5_part0_retry_exhaustion (fun _ => Part0.AttemptOutcome.startFails)
    (fun _ => rfl) false "t" 0 1 [] rfl
  exact ⟨rfl, h.1, h.2.1, h.2.2.1, h.2.2.2⟩

/-! ## C6 -/

/-- C6, amended: on the driver's `disconnected` event the record
transitions to `'disconnected'` and is removed from the registry (via
`cleanupSession` in main2.js, via a bare `activeClients.delete` in
part_000 — no `destroy`, no teardown path), but the record's completion
handle is **left untouched** by both handlers: if it was still pending it
stays pending forever and is never rejected with `DriverRuntimeFailure`. -/
theorem c6_disconnect_teardown_without_reject :
    (∀ (cs : Part0.ClientState) (uid : String) (st : Part0.Registry),
      (Part0.onDisconnected cs uid st).1.status = Status.disconnected
      ∧ mapGet (Part0.onDisconnected cs uid st).2 uid = none
      ∧ (Part0.onDisconnected cs uid st).1.promise = cs.promise)
    ∧ (∀ (destroyOk : Bool) (cs : Main2.ClientState) (uid : String)
        (st : Main2.Registry),
      (Main2.onDisconnected destroyOk cs uid st).1.status = Status.disconnected
      ∧ mapGet (Main2.onDisconnected destroyOk cs uid st).2 uid = none
      ∧ (Main2.onDisconnected destroyOk cs uid st).1.promise = cs.promise) := by
  constructor
  · intro cs uid st
    exact ⟨rfl, mapGet_mapDelete_self _ _, rfl⟩
  · intro destroyOk cs uid st
    refine ⟨rfl, ?_, rfl⟩
    unfold Main2.onDisconnected Main2.cleanupSession
    simp only [mapGet_mapSet_self]
    exact mapGet_mapDelete_self _ _

/-- C6 counterexample: a concrete record for `a` whose completion handle is
still pending when the driver disconnects.  After part_000's
`'disconnected'` handler runs, the handle is *still pending* — it was not
rejected (with `DriverRuntimeFailure` or anything else). -/
theorem c6_promise_left_pending_counterexample :
    (Part0.onDisconnected
        { clientId := 1, status := Status.pending, qrCode := some "qr",
          lastActivity := 3, promise := PromiseState.pending }
        "a"
        ([("a", { clientId := 1, status := Status.pending,
                  qrCode := some "qr", lastActivity := 3,
                  promise := PromiseState.pending })] :
          Part0.Registry)).1.promise = PromiseState.pending
    ∧ PromiseState.pending ≠ PromiseState.rejected := by
  exact ⟨rfl, by decide⟩

/-! ## C7 -/

/-- C7, amended: one tick of the main2.js inactivity sweeper removes
exactly the records whose idle time `now - lastActivity` exceeds
`INACTIVITY_TIMEOUT` — the sweep condition never consults `status`, so
mid-handshake (non-READY) records idle beyond the threshold are torn down
too (see the counterexample), while every record within the threshold is
kept unchanged. -/
theorem c7_main2_sweep_idle_only (now : Nat) (st : Main2.Registry)
    (hnd : (st.map Prod.fst).Nodup) (uid : String) :
    mapGet (Main2.sweepTick now st) uid
      = match mapGet st uid with
        | some cs =>
          if Main2.INACTIVITY_TIMEOUT < now - cs.lastActivity then none
          else some cs
        | none => none := by
  induction st with
  | nil => simp [Main2.sweepTick, mapGet]
  | cons e rest ih =>
    obtain ⟨u, c⟩ := e
    simp only [List.map_cons, List.nodup_cons] at hnd
    by_cases hu : u = uid
    · subst hu
      by_cases hidle : Main2.INACTIVITY_TIMEOUT < now - c.lastActivity
      · have hrest : mapGet rest u = none :=
          mapGet_eq_none_of_not_mem_keys rest u hnd.1
        rw [Main2.sweepTick, if_pos hidle, ih hnd.2, hrest]
        simp [mapGet, hidle]
      · rw [Main2.sweepTick, if_neg hidle]
        simp [mapGet, hidle]
    · by_cases hidle : Main2.INACTIVITY_TIMEOUT < now - c.lastActivity
      · rw [Main2.sweepTick, if_pos hidle, ih hnd.2]
        simp [mapGet, hu]
      · rw [Main2.sweepTick, if_neg hidle]
        simp only [mapGet, if_neg hu]
        exact ih hnd.2

/-- Witness for C7: concrete two-record registry with distinct keys; the
stale record `a` is swept, the fresh record `b` survives. -/
theorem c7_main2_sweep_idle_only_witness :
    (([("a", { clientId := 1, status := Status.ready, qrCode := none,
               lastActivity := 0, promise := PromiseState.resolved }),
       ("b", { clientId := 2, status := Status.ready, qrCode := none,
               lastActivity := 390000,
               promise := PromiseState.resolved })] :
        Main2.Registry).map Prod.fst).Nodup
    ∧ mapGet (Main2.sweepTick 400000
        ([("a", { clientId := 1, status := Status.ready, qrCode := none,
                  lastActivity := 0, promise := PromiseState.resolved }),
          ("b", { clientId := 2, status := Status.ready, qrCode := none,
                  lastActivity := 390000,
                  promise := PromiseState.resolved })] :
          Main2.Registry)) "a" = none := by
  refine ⟨by decide, ?_⟩
  have h := c7_main2_sweep_idle_only 400000
    ([("a", { clientId := 1, status := Status.ready, qrCode := none,
              lastActivity := 0, promise := PromiseState.resolved }),
      ("b", { clientId := 2, status := Status.ready, qrCode := none,
              lastActivity := 390000,
              promise := PromiseState.resolved })] :
      Main2.Registry) (by decide) "a"
  rw [h]
  decide

/-- C7 counterexample: a mid-handshake (`'pending'`, non-READY) record idle
beyond the threshold **is** torn down by the main2.js sweeper, contradicting
`never touches non-READY records`. -/
theorem c7_sweep_evicts_mid_handshake_counterexample :
    Main2.sweepTick 400000
        ([("a", { clientId := 1, status := Status.pending,
                  qrCode := some "qr", lastActivity := 0,
                  promise := PromiseState.pending })] : Main2.Registry)
      = []
    ∧ Status.pending ≠ Status.ready := by
  exact ⟨by decide, by decide⟩

/-! ## C8 -/

/-- C8, amended: teardown is authoritative on internal state in main2.js,
part_000 and part_001 — `cleanupSession` removes the record from
`activeClients` whether or not the driver `destroy` succeeded (a failure is
only logged).  In part_002, however, `cleanupSession` destroys nothing and
instead removes the on-disk session directory *before* the
`activeClients.delete` inside the same `try`: when that removal throws, the
delete is skipped and the record survives teardown (see the
counterexample). -/
theorem c8_teardown_registry_removal :
    (∀ (destroyOk : Bool) (uid : String) (st : Main2.Registry),
        mapGet (Main2.cleanupSession destroyOk uid st).1 uid = none)
    ∧ (∀ (destroyOk : Bool) (uid : String) (st : Part0.Registry),
        mapGet (Part0.cleanupSession destroyOk uid st).1 uid = none)
    ∧ (∀ (destroyOk : Bool) (uid : String) (st : Part1.Registry),
        mapGet (Part1.cleanupSession destroyOk uid st).1 uid = none)
    ∧ (∀ (uid : String) (st : Part2.Registry),
        (Part2.cleanupSession true false uid st).1 = st) := by
  refine ⟨?_, ?_, ?_, ?_⟩
  · intro destroyOk uid st
    unfold Main2.cleanupSession
    cases hg : mapGet st uid with
    | some cs => simp [mapGet_mapDelete_self]
    | none => simpa using hg
  · intro destroyOk uid st
    unfold Part0.cleanupSession
    cases hg : mapGet st uid with
    | some cs => simp [mapGet_mapDelete_self]
    | none => simp [mapGet_mapDelete_self]
  · intro destroyOk uid st
    unfold Part1.cleanupSession
    cases hg : mapGet st uid with
    | some cs => simp [mapGet_mapDelete_self]
    | none => simpa using hg
  · intro uid st
    unfold Part2.cleanupSession
    simp

/-- C8 counterexample: in part_002, teardown of tenant `a` whose session
directory exists but whose `fs.remove` throws leaves the record in the
registry — the removal did **not** happen regardless. -/
theorem c8_part2_remove_failure_keeps_record_counterexample :
    mapGet
        (Part2.cleanupSession true false "a"
          ([("a", { clientId := 1, status := Status.ready, qrCode := none,
                    lastActivity := 0 })] : Part2.Registry)).1 "a"
      = some { clientId := 1, status := Status.ready, qrCode := none,
               lastActivity := 0 } := by
  decide

/-! ## C9 -/

/-- C9, amended: main2.js `/disconnect` is an acknowledged no-op for a
tenant with no record; with a record, it acknowledges and removes the
record when the endpoint's direct `clientState.client.destroy()` succeeds —
but when that destroy call throws, the handler's `catch` answers a 500
error and the record is left in the registry, so release does **not**
always succeed. -/
theorem c9_release_noop_or_destroy_error (destroyOk : Bool) (uid : String)
    (st : Main2.Registry) :
    (mapGet st uid = none →
      Main2.disconnectCore destroyOk uid st
        = ({ code := 200, status := "disconnected", body := "" }, st))
    ∧ (∀ cs, mapGet st uid = some cs → destroyOk = false →
      Main2.disconnectCore destroyOk uid st
        = ({ code := 500, status := "error",
             body := "Failed to disconnect" }, st))
    ∧ (∀ cs, mapGet st uid = some cs → destroyOk = true →
      (Main2.disconnectCore destroyOk uid st).1.code = 200
      ∧ mapGet (Main2.disconnectCore destroyOk uid st).2 uid = none) := by
  refine ⟨?_, ?_, ?_⟩
  · intro hg
    unfold Main2.disconnectCore
    rw [hg]
  · intro cs hg hd
    subst hd
    unfold Main2.disconnectCore
    rw [hg]
    simp
  · intro cs hg hd
    subst hd
    unfold Main2.disconnectCore Main2.cleanupSession
    rw [hg]
    simp [mapGet_mapDelete_self]

/-- Witness for C9: concrete registry; release of an unknown tenant is an
acknowledged no-op. -/
theorem c9_release_noop_or_destroy_error_witness :
    mapGet ([] : Main2.Registry) "a" = none
    ∧ Main2.disconnectCore true "a" ([] : Main2.Registry)
        = ({ code := 200, status := "disconnected", body := "" }, []) :=
  ⟨rfl, (c9_release_noop_or_destroy_error true "a" []).1 rfl⟩

/-- C9 counterexample: for a tenant `a` with a live record whose driver
`destroy()` throws, main2.js `/disconnect` answers a 500 error (and keeps
the record) instead of the acknowledgement the claim promises for every
release. -/
theorem c9_main2_release_error_counterexample :
    (Main2.disconnectCore false "a"
        ([("a", { clientId := 1, status := Status.ready, qrCode := none,
                  lastActivity := 0, promise := PromiseState.resolved })] :
          Main2.Registry)).1.code = 500
    ∧ (Main2.disconnectCore false "a"
        ([("a", { clientId := 1, status := Status.ready, qrCode := none,
                  lastActivity := 0, promise := PromiseState.resolved })] :
          Main2.Registry)).1.status = "error"
    ∧ mapGet (Main2.disconnectCore false "a"
        ([("a", { clientId := 1, status := Status.ready, qrCode := none,
                  lastActivity := 0, promise := PromiseState.resolved })] :
          Main2.Registry)).2 "a" ≠ none := by
  refine ⟨by decide, by decide, by decide⟩

/-! ## C10 -/

/-- C10, confirmed: every state-changing endpoint of main2.js (`/init`,
`/send-message`, `/disconnect` — the same `authMiddleware` guards the other
variants) answers the 401 `Authorization token required` error and leaves
the registry untouched whenever the request carries no bearer token. -/
theorem c10_auth_required (authHeader : Option String) (freshId now : Nat)
    (run : Main2.DriverRun) (sendOk destroyOk : Bool) (st : Main2.Registry)
    (h : authToken authHeader = none) :
    Main2.initEndpoint authHeader freshId now run st = (response401, st)
    ∧ Main2.sendMessageEndpoint authHeader freshId now run sendOk st
        = (response401, st)
    ∧ Main2.disconnectEndpoint authHeader destroyOk st = (response401, st) := by
  unfold Main2.initEndpoint Main2.sendMessageEndpoint Main2.disconnectEndpoint
  rw [h]
  exact ⟨rfl, rfl, rfl⟩

/-- Witness for C10: a request with no Authorization header at all. -/
theorem c10_auth_required_witness :
    authToken none = none
    ∧ Main2.disconnectEndpoint none true ([] : Main2.Registry)
        = (response401, ([] : Main2.Registry)) :=
  ⟨rfl,
   (c10_auth_required none 1 0 Main2.DriverRun.timesOut true true [] rfl).2.2⟩
